import Mathlib

/-!
# Verification of the `gg-meet` cron scheduler

A shallow embedding of `supabase/functions/gg-meet/index.ts`: the tick
dispatcher (`serve`), its two sub-tasks (`handleGoogleMeetLinkCreation`,
`handleThreeDayCalendarReminders`) and the Google OAuth credential
lifecycle (`getGoogleTokensForUser`, `refreshAccessToken`,
`markTokenAsInvalid`).

Time is modelled as milliseconds since the epoch (`Nat`); the ISO-8601
string comparisons performed by the store queries agree with comparison
of the underlying instants.  Network and store interactions are modelled
by an explicit environment: the stored credential row, the outcome of
the token probe, the outcome of the refresh HTTP call, the outcome of
the post-refresh store write, the outcome of each calendar-event
creation, and whether a window query fails.  Each function returns, in
addition to its result, the updated credential row and/or a trace of the
external effects it issued, so that isolation and frame properties can
be stated.
-/

/-- One row of the `appointment` table, restricted to the columns the
scheduler selects. -/
structure Appointment where
  appointment_id : Nat
  meeting_date : Nat
  duration : Nat
  content : String
  status : String
  is_online : Bool
  is_visible : Bool
  meeting_link : Option String
  patient_id : Nat
  staff_id : Nat
deriving DecidableEq, Repr

/-- One row of the `user_tokens` table (the columns `gg-meet` touches). -/
structure Credential where
  gg_access_token : String
  gg_refresh_token : String
  gg_token_status : Bool
deriving DecidableEq, Repr

/-- The token pair returned by `getGoogleTokensForUser`. -/
structure Tokens where
  access_token : String
  refresh_token : String
deriving DecidableEq, Repr

/-- The outbound network calls made while resolving a token: the probe
(`GET calendars/primary`) and the refresh (`POST oauth2 token`). -/
inductive NetCall where
  | probe
  | refresh
deriving DecidableEq, Repr

/-- Environment for one `getGoogleTokensForUser` invocation: the stored
credential row for the user and the outcomes of the external calls it
may issue. -/
structure TokenEnv where
  cred : Option Credential
  probeOk : Bool
  refreshOk : Bool
  newAccessToken : String
  refreshPersistOk : Bool

/-- Result of one token resolution: the value returned to the caller,
the credential row as left in the store, and the trace of network calls
issued, in order. -/
structure TokenResult where
  result : Option Tokens
  store : Option Credential
  calls : List NetCall

/-- `markTokenAsInvalid`: writes `gg_token_status = false` for the user;
all other columns are untouched. -/
def markTokenAsInvalid (c : Credential) : Credential :=
  { c with gg_token_status := false }

/-- `refreshAccessToken`: one POST to the OAuth token endpoint.  If the
response is not ok, the token is marked invalid and the error is
rethrown (the caller turns it into `none`).  On an ok response the new
access token is written back together with `gg_token_status = true`; if
that write fails the error path also marks the token invalid.  On
end-to-end success the new access token is returned paired with the
original refresh token. -/
def refreshAccessToken (env : TokenEnv) (c : Credential) : TokenResult :=
  if env.refreshOk then
    if env.refreshPersistOk then
      { result := some { access_token := env.newAccessToken,
                         refresh_token := c.gg_refresh_token },
        store := some { c with gg_access_token := env.newAccessToken,
                               gg_token_status := true },
        calls := [NetCall.refresh] }
    else
      { result := none, store := some (markTokenAsInvalid c),
        calls := [NetCall.refresh] }
  else
    { result := none, store := some (markTokenAsInvalid c),
      calls := [NetCall.refresh] }

/-- `getGoogleTokensForUser`: the store query filters on
`gg_token_status = true` and `.single()`, so an absent row or a row with
status `false` yields a query error and the function returns `null`
without any network call.  Otherwise the stored access token is probed;
if the probe succeeds the stored pair is returned unchanged, else one
refresh is attempted via `refreshAccessToken` (whose throw is caught and
turned into `null`). -/
def getGoogleTokensForUser (env : TokenEnv) : TokenResult :=
  match env.cred with
  | none => { result := none, store := none, calls := [] }
  | some c =>
    if c.gg_token_status then
      if env.probeOk then
        { result := some { access_token := c.gg_access_token,
                           refresh_token := c.gg_refresh_token },
          store := some c, calls := [NetCall.probe] }
      else
        let r := refreshAccessToken env c
        { r with calls := NetCall.probe :: r.calls }
    else
      { result := none, store := some c, calls := [] }

/-- Whether a `meeting_link` column value passes the
`meeting_link.is.null,meeting_link.eq.` (null or empty string) filter. -/
def linkEmpty : Option String → Bool
  | none => true
  | some s => s == ""

/-- The meet-link query filter: `status = scheduled`, `is_online`,
`is_visible`, empty link, `now ≤ meeting_date ≤ now + 30min`. -/
def meetLinkWindowSelect (now : Nat) (a : Appointment) : Bool :=
  (a.status == "scheduled") && a.is_online && a.is_visible &&
    linkEmpty a.meeting_link &&
    decide (now ≤ a.meeting_date) &&
    decide (a.meeting_date ≤ now + 30 * 60 * 1000)

/-- The reminder query filter: `status = scheduled`, `is_visible`, and
`meeting_date` within ±30 seconds of `now + 3 days`. -/
def reminderWindowSelect (now : Nat) (a : Appointment) : Bool :=
  (a.status == "scheduled") && a.is_visible &&
    decide (now + 3 * 24 * 60 * 60 * 1000 - 30 * 1000 ≤ a.meeting_date) &&
    decide (a.meeting_date ≤ now + 3 * 24 * 60 * 60 * 1000 + 30 * 1000)

/-- Which participant's calendar a reminder is created in. -/
inductive Role where
  | patient
  | staff
deriving DecidableEq, Repr

/-- External effects issued by the meet-link sub-task, per appointment:
a calendar-event creation call and the `meeting_link` update. -/
inductive MeetEffect where
  | createCall (aid : Nat)
  | updateLink (aid : Nat) (link : String)
deriving DecidableEq, Repr

/-- External effects issued by the reminder sub-task: one attempted
calendar-reminder creation per appointment and participant. -/
inductive ReminderEffect where
  | attempt (aid : Nat) (role : Role)
deriving DecidableEq, Repr

/-- Environment of one tick: configuration presence, the captured `now`,
the measured execution time, the appointment table, whether each window
query fails, the per-user token environment, and the outcomes of the
external creation calls (`meetCreate i = some link` means the event
creation for appointment `i` returned a conference link, `none` means it
threw; `patientReminderOk i` / `staffReminderOk i` tell whether the
reminder creation for appointment `i` succeeded or threw). -/
structure TickEnv where
  hasConfig : Bool
  nowMs : Nat
  execMs : Nat
  table : List Appointment
  meetQueryFails : Bool
  reminderQueryFails : Bool
  tokenEnv : Nat → TokenEnv
  meetCreate : Nat → Option String
  patientReminderOk : Nat → Bool
  staffReminderOk : Nat → Bool

/-- The appointments returned by the meet-link window query. -/
def meetSelected (env : TickEnv) : List Appointment :=
  env.table.filter (meetLinkWindowSelect env.nowMs)

/-- The appointments returned by the reminder window query. -/
def reminderSelected (env : TickEnv) : List Appointment :=
  env.table.filter (reminderWindowSelect env.nowMs)

/-- The meet-link loop body for one appointment: resolve the staff
token; if none, skip; else call `createGoogleMeetLink` and, if it
returned a link, issue the `meeting_link` update.  A throw inside the
body is caught per appointment. -/
def processMeetApp (env : TickEnv) (a : Appointment) : List MeetEffect :=
  match (getGoogleTokensForUser (env.tokenEnv a.staff_id)).result with
  | none => []
  | some _ =>
    MeetEffect.createCall a.appointment_id ::
      (match env.meetCreate a.appointment_id with
       | none => []
       | some link => [MeetEffect.updateLink a.appointment_id link])

/-- `handleGoogleMeetLinkCreation`: a failing window query throws out of
the handler; otherwise each selected appointment is processed in order
with per-appointment error capture. -/
def handleGoogleMeetLinkCreation (env : TickEnv) :
    Except Unit (List MeetEffect) :=
  if env.meetQueryFails then Except.error ()
  else Except.ok ((meetSelected env).flatMap (processMeetApp env))

/-- The reminder loop body for one appointment: both participants'
tokens are resolved via `Promise.allSettled`; the patient's reminder is
attempted when the patient token resolved, then the staff's when the
staff token resolved — but both attempts sit in a single per-appointment
`try`, so a throw while creating the patient's reminder skips the staff
attempt for that appointment. -/
def processReminderApp (env : TickEnv) (a : Appointment) :
    List ReminderEffect :=
  match (getGoogleTokensForUser (env.tokenEnv a.patient_id)).result with
  | some _ =>
    ReminderEffect.attempt a.appointment_id Role.patient ::
      (if env.patientReminderOk a.appointment_id then
         match (getGoogleTokensForUser (env.tokenEnv a.staff_id)).result with
         | some _ => [ReminderEffect.attempt a.appointment_id Role.staff]
         | none => []
       else [])
  | none =>
    match (getGoogleTokensForUser (env.tokenEnv a.staff_id)).result with
    | some _ => [ReminderEffect.attempt a.appointment_id Role.staff]
    | none => []

/-- `handleThreeDayCalendarReminders`: a failing window query throws out
of the handler; otherwise each selected appointment is processed with a
per-appointment catch. -/
def handleThreeDayCalendarReminders (env : TickEnv) :
    Except Unit (List ReminderEffect) :=
  if env.reminderQueryFails then Except.error ()
  else Except.ok ((reminderSelected env).flatMap (processReminderApp env))

/-- The JSON body returned by the tick endpoint: exactly the fields the
source serialises (`success`, `message`, `timestamp`, `executionTime` on
the 200 path; `success`, `error` on the 500 path). -/
structure ServeResponse where
  success : Bool
  message : Option String
  errorMsg : Option String
  timestamp : Option Nat
  executionTime : Option Nat
deriving DecidableEq, Repr

/-- Whether an `Except` computation completed without throwing
(`Promise.allSettled` fulfilled vs rejected). -/
def exceptOk {ε α : Type} : Except ε α → Bool
  | Except.ok _ => true
  | Except.error _ => false

/-- Everything observable about one tick: the HTTP response, each
sub-task's settled status as inspected by the `forEach` over
`Promise.allSettled`, and the external effects each sub-task issued. -/
structure TickOutput where
  response : ServeResponse
  meetTaskFulfilled : Bool
  reminderTaskFulfilled : Bool
  meetEffects : List MeetEffect
  reminderEffects : List ReminderEffect
deriving DecidableEq, Repr

/-- The `serve` handler for one non-OPTIONS request: missing
configuration aborts the tick with a 500 before either sub-task runs;
otherwise both sub-tasks run under `Promise.allSettled` and the response
is the fixed success body. -/
def serveTick (env : TickEnv) : TickOutput :=
  if env.hasConfig then
    let r1 := handleGoogleMeetLinkCreation env
    let r2 := handleThreeDayCalendarReminders env
    { response := { success := true,
                    message := some "Cron job executed successfully",
                    errorMsg := none,
                    timestamp := some env.nowMs,
                    executionTime := some env.execMs },
      meetTaskFulfilled := exceptOk r1,
      reminderTaskFulfilled := exceptOk r2,
      meetEffects := r1.toOption.getD [],
      reminderEffects := r2.toOption.getD [] }
  else
    { response := { success := false, message := none,
                    errorMsg := some "Missing Supabase environment variables",
                    timestamp := none, executionTime := none },
      meetTaskFulfilled := false,
      reminderTaskFulfilled := false,
      meetEffects := [],
      reminderEffects := [] }

/-! ## Concrete credential environments used by witnesses -/

/-- A stored credential row with `gg_token_status = false`. -/
def credInvalid : Credential :=
  { gg_access_token := "a", gg_refresh_token := "r", gg_token_status := false }

/-- A stored credential row with `gg_token_status = true`. -/
def credValid : Credential :=
  { gg_access_token := "a", gg_refresh_token := "r", gg_token_status := true }

/-- Token environment of a user whose stored row is invalid. -/
def tokenEnvInvalid : TokenEnv :=
  { cred := some credInvalid, probeOk := true, refreshOk := true,
    newAccessToken := "n", refreshPersistOk := true }

/-- Token environment where the probe fails and the refresh succeeds
end to end. -/
def tokenEnvRefreshOk : TokenEnv :=
  { cred := some credValid, probeOk := false, refreshOk := true,
    newAccessToken := "n", refreshPersistOk := true }

/-! ## C4, C5, C6, C10 — credential lifecycle -/

/-- C4: for a user whose stored credential row is absent or has
`gg_token_status = false`, `getGoogleTokensForUser` returns `null` and
issues no network call at all (neither a probe nor a refresh). -/
theorem resolveToken_absent_or_invalid_no_network (env : TokenEnv)
    (h : env.cred = none ∨ ∃ c, env.cred = some c ∧ c.gg_token_status = false) :
    (getGoogleTokensForUser env).result = none ∧
      (getGoogleTokensForUser env).calls = [] := by
  rcases h with h | ⟨c, hc, hs⟩
  · simp [getGoogleTokensForUser, h]
  · simp [getGoogleTokensForUser, hc, hs]

/-- Witness for C4 at a concrete invalid credential. -/
theorem resolveToken_absent_or_invalid_no_network_witness :
    (getGoogleTokensForUser tokenEnvInvalid).result = none ∧
      (getGoogleTokensForUser tokenEnvInvalid).calls = [] :=
  resolveToken_absent_or_invalid_no_network tokenEnvInvalid
    (Or.inr ⟨credInvalid, rfl, rfl⟩)

/-- C6: each `getGoogleTokensForUser` invocation issues at most one
refresh call, and a refresh call is only ever issued right after a probe
that failed (the call trace is then exactly probe-then-refresh). -/
theorem resolveToken_probe_precedes_single_refresh (env : TokenEnv) :
    (getGoogleTokensForUser env).calls.count NetCall.refresh ≤ 1 ∧
      (NetCall.refresh ∈ (getGoogleTokensForUser env).calls →
        (getGoogleTokensForUser env).calls = [NetCall.probe, NetCall.refresh] ∧
          env.probeOk = false) := by
  rcases env with ⟨cred, probeOk, refreshOk, newTok, persistOk⟩
  rcases cred with _ | c
  · simp [getGoogleTokensForUser]
  · cases hs : c.gg_token_status <;> cases probeOk <;> cases refreshOk <;>
      cases persistOk <;>
        simp [getGoogleTokensForUser, refreshAccessToken, hs,
          List.count_cons, List.count_nil]

/-- Witness for C6: in the probe-fails-then-refresh environment the
trace is exactly `[probe, refresh]`. -/
theorem resolveToken_probe_precedes_single_refresh_witness :
    (getGoogleTokensForUser tokenEnvRefreshOk).calls =
        [NetCall.probe, NetCall.refresh] ∧
      tokenEnvRefreshOk.probeOk = false :=
  (resolveToken_probe_precedes_single_refresh tokenEnvRefreshOk).2 (by decide)

/-- C5: with a stored valid credential whose probe fails — if the single
refresh attempt succeeds end to end, the new access token is persisted
with `gg_token_status` still `true` and the new pair is returned; the
stored status is flipped to `false` (Invalid) exactly when the refresh
attempt fails (refresh HTTP error, or failure to persist the refreshed
token), and in that case the resolver returns `null`. -/
theorem resolveToken_refresh_outcome (env : TokenEnv) (c : Credential)
    (hc : env.cred = some c) (hs : c.gg_token_status = true)
    (hp : env.probeOk = false) :
    (env.refreshOk = true → env.refreshPersistOk = true →
      (getGoogleTokensForUser env).result =
          some { access_token := env.newAccessToken,
                 refresh_token := c.gg_refresh_token } ∧
        (getGoogleTokensForUser env).store =
          some { c with gg_access_token := env.newAccessToken,
                        gg_token_status := true }) ∧
    ((∃ d, (getGoogleTokensForUser env).store = some d ∧
        d.gg_token_status = false) ↔
      ¬(env.refreshOk = true ∧ env.refreshPersistOk = true)) ∧
    (¬(env.refreshOk = true ∧ env.refreshPersistOk = true) →
      (getGoogleTokensForUser env).result = none) := by
  cases hro : env.refreshOk <;> cases hrp : env.refreshPersistOk <;>
    simp [getGoogleTokensForUser, refreshAccessToken, markTokenAsInvalid,
      hc, hs, hp, hro, hrp]

/-- Witness for C5: a concrete probe-fail-refresh-success run returning
and persisting the new access token. -/
theorem resolveToken_refresh_outcome_witness :
    (getGoogleTokensForUser tokenEnvRefreshOk).result =
        some { access_token := tokenEnvRefreshOk.newAccessToken,
               refresh_token := credValid.gg_refresh_token } ∧
      (getGoogleTokensForUser tokenEnvRefreshOk).store =
        some { credValid with
                gg_access_token := tokenEnvRefreshOk.newAccessToken,
                gg_token_status := true } :=
  (resolveToken_refresh_outcome tokenEnvRefreshOk credValid rfl rfl rfl).1
    rfl rfl

/-- C10: a refresh that succeeds end to end writes back only the access
token and the status flag — the stored `gg_refresh_token` is unchanged,
and the returned pair carries the original refresh token. -/
theorem refresh_success_preserves_refresh_token (env : TokenEnv)
    (c : Credential) (h1 : env.refreshOk = true)
    (h2 : env.refreshPersistOk = true) :
    (refreshAccessToken env c).result =
        some { access_token := env.newAccessToken,
               refresh_token := c.gg_refresh_token } ∧
      (refreshAccessToken env c).store =
        some { gg_access_token := env.newAccessToken,
               gg_refresh_token := c.gg_refresh_token,
               gg_token_status := true } ∧
      (refreshAccessToken env c).calls = [NetCall.refresh] := by
  simp [refreshAccessToken, h1, h2]

/-- Witness for C10 at the concrete refresh-success environment. -/
theorem refresh_success_preserves_refresh_token_witness :
    (refreshAccessToken tokenEnvRefreshOk credValid).result =
        some { access_token := tokenEnvRefreshOk.newAccessToken,
               refresh_token := credValid.gg_refresh_token } ∧
      (refreshAccessToken tokenEnvRefreshOk credValid).store =
        some { gg_access_token := tokenEnvRefreshOk.newAccessToken,
               gg_refresh_token := credValid.gg_refresh_token,
               gg_token_status := true } ∧
      (refreshAccessToken tokenEnvRefreshOk credValid).calls =
        [NetCall.refresh] :=
  refresh_success_preserves_refresh_token tokenEnvRefreshOk credValid rfl rfl

/-! ## Window selection lemmas -/

/-- Unfolding of the meet-link filter into its conjuncts. -/
theorem meetLinkWindowSelect_iff (now : Nat) (a : Appointment) :
    meetLinkWindowSelect now a = true ↔
      (a.status = "scheduled" ∧ a.is_online = true ∧ a.is_visible = true ∧
        linkEmpty a.meeting_link = true ∧ now ≤ a.meeting_date ∧
        a.meeting_date ≤ now + 30 * 60 * 1000) := by
  simp [meetLinkWindowSelect, Bool.and_eq_true, decide_eq_true_eq,
    and_assoc]

/-- Unfolding of the reminder filter into its conjuncts. -/
theorem reminderWindowSelect_iff (now : Nat) (a : Appointment) :
    reminderWindowSelect now a = true ↔
      (a.status = "scheduled" ∧ a.is_visible = true ∧
        now + 3 * 24 * 60 * 60 * 1000 - 30 * 1000 ≤ a.meeting_date ∧
        a.meeting_date ≤ now + 3 * 24 * 60 * 60 * 1000 + 30 * 1000) := by
  simp [reminderWindowSelect, Bool.and_eq_true, decide_eq_true_eq,
    and_assoc]

/-- The appointment id an effect of the meet-link task refers to. -/
def meetEffectAid : MeetEffect → Nat
  | MeetEffect.createCall aid => aid
  | MeetEffect.updateLink aid _ => aid

/-- Each effect emitted while processing one appointment of the
meet-link task carries that appointment's id. -/
theorem processMeetApp_mem_aid (env : TickEnv) (b : Appointment)
    (e : MeetEffect) (he : e ∈ processMeetApp env b) :
    meetEffectAid e = b.appointment_id := by
  unfold processMeetApp at he
  cases hres : (getGoogleTokensForUser (env.tokenEnv b.staff_id)).result <;>
    simp only [hres] at he
  · simp at he
  · cases hm : env.meetCreate b.appointment_id <;> simp only [hm] at he <;>
      simp at he
    · subst he; rfl
    · rcases he with rfl | rfl <;> rfl

/-- An appointment that the meet-link window query does not select
receives no effect from the meet-link task (given that appointment ids
are unique, as `appointment_id` is the table's primary key). -/
theorem meet_not_selected_no_effects (env : TickEnv) (a : Appointment)
    (hnd : (env.table.map (fun x => x.appointment_id)).Nodup)
    (ha : a ∈ env.table) (hsel : a ∉ meetSelected env) :
    ∀ tr, handleGoogleMeetLinkCreation env = Except.ok tr →
      ∀ e ∈ tr, meetEffectAid e ≠ a.appointment_id := by
  intro tr htr e hetr hEq
  unfold handleGoogleMeetLinkCreation at htr
  by_cases hq : env.meetQueryFails
  · simp [hq] at htr
  · simp only [hq, if_false] at htr
    cases htr
    obtain ⟨b, hb, he⟩ := List.mem_flatMap.1 hetr
    have hbe := processMeetApp_mem_aid env b e he
    have hb_table : b ∈ env.table := (List.mem_filter.1 hb).1
    have hba : b = a :=
      List.inj_on_of_nodup_map hnd hb_table ha (by rw [← hbe, hEq])
    exact hsel (hba ▸ hb)

/-! ## C2, C7, C8 — window selection and idempotence -/

/-- C2 (amended): the reminder sub-task selects exactly the appointments
whose `meeting_date` lies within ±30 seconds of `now + 3 days`, whose
status is `scheduled` (only — `confirmed` is not selected), and whose
`is_visible` flag is true. -/
theorem reminder_selection_exact (env : TickEnv) (a : Appointment) :
    a ∈ reminderSelected env ↔
      (a ∈ env.table ∧ a.status = "scheduled" ∧ a.is_visible = true ∧
        env.nowMs + 3 * 24 * 60 * 60 * 1000 - 30 * 1000 ≤ a.meeting_date ∧
        a.meeting_date ≤ env.nowMs + 3 * 24 * 60 * 60 * 1000 + 30 * 1000) := by
  rw [reminderSelected, List.mem_filter, reminderWindowSelect_iff]

/-- A `confirmed` appointment lying exactly on `now + 3 days`. -/
def aptConfirmed : Appointment :=
  { appointment_id := 7, meeting_date := 259200000, duration := 30,
    content := "checkup", status := "confirmed", is_online := true,
    is_visible := true, meeting_link := none, patient_id := 1,
    staff_id := 2 }

/-- A tick environment whose table holds only `aptConfirmed`. -/
def envConfirmed : TickEnv :=
  { hasConfig := true, nowMs := 0, execMs := 5, table := [aptConfirmed],
    meetQueryFails := false, reminderQueryFails := false,
    tokenEnv := fun _ => tokenEnvRefreshOk,
    meetCreate := fun _ => some "https://meet.example",
    patientReminderOk := fun _ => true, staffReminderOk := fun _ => true }

/-- Counterexample to C2 as stated: a visible appointment with status
`confirmed` whose `meeting_date` is exactly `now + 3 days` is *not*
selected by the reminder query (the filter only accepts `scheduled`). -/
theorem reminder_selection_confirmed_not_selected :
    aptConfirmed.status = "confirmed" ∧ aptConfirmed.is_visible = true ∧
      envConfirmed.nowMs + 3 * 24 * 60 * 60 * 1000 - 30 * 1000 ≤
        aptConfirmed.meeting_date ∧
      aptConfirmed.meeting_date ≤
        envConfirmed.nowMs + 3 * 24 * 60 * 60 * 1000 + 30 * 1000 ∧
      aptConfirmed ∈ envConfirmed.table ∧
      reminderSelected envConfirmed = [] := by decide

/-- C7: the meet-link sub-task selects exactly the appointments with
`meeting_date` in `[now, now + 30min]`, status `scheduled`,
`is_online`, `is_visible`, and empty `meeting_link`; an appointment with
`meeting_date` outside the window is neither selected nor touched by any
meet-link effect (assuming the primary-key uniqueness of
`appointment_id`). -/
theorem meet_link_selection_exact (env : TickEnv) (a : Appointment)
    (hnd : (env.table.map (fun x => x.appointment_id)).Nodup) :
    (a ∈ meetSelected env ↔
      (a ∈ env.table ∧ a.status = "scheduled" ∧ a.is_online = true ∧
        a.is_visible = true ∧ linkEmpty a.meeting_link = true ∧
        env.nowMs ≤ a.meeting_date ∧
        a.meeting_date ≤ env.nowMs + 30 * 60 * 1000)) ∧
    (a ∈ env.table →
      ¬(env.nowMs ≤ a.meeting_date ∧
          a.meeting_date ≤ env.nowMs + 30 * 60 * 1000) →
      a ∉ meetSelected env ∧
        ∀ tr, handleGoogleMeetLinkCreation env = Except.ok tr →
          MeetEffect.createCall a.appointment_id ∉ tr ∧
            ∀ link, MeetEffect.updateLink a.appointment_id link ∉ tr) := by
  have hiff : a ∈ meetSelected env ↔
      (a ∈ env.table ∧ a.status = "scheduled" ∧ a.is_online = true ∧
        a.is_visible = true ∧ linkEmpty a.meeting_link = true ∧
        env.nowMs ≤ a.meeting_date ∧
        a.meeting_date ≤ env.nowMs + 30 * 60 * 1000) := by
    rw [meetSelected, List.mem_filter, meetLinkWindowSelect_iff]
  refine ⟨hiff, fun ha hw => ?_⟩
  have hsel : a ∉ meetSelected env := fun hmem =>
    hw ⟨(hiff.1 hmem).2.2.2.2.2.1, (hiff.1 hmem).2.2.2.2.2.2⟩
  refine ⟨hsel, fun tr htr => ?_⟩
  have hno := meet_not_selected_no_effects env a hnd ha hsel tr htr
  exact ⟨fun hmem => hno _ hmem rfl, fun link hmem => hno _ hmem rfl⟩

/-- C8: for an appointment already carrying a non-empty `meeting_link`,
re-running the meet-link task selects it no more, invokes no
calendar-event creation for it, and issues no update for it. -/
theorem meet_link_idempotent_nonempty_link (env : TickEnv)
    (a : Appointment)
    (hnd : (env.table.map (fun x => x.appointment_id)).Nodup)
    (ha : a ∈ env.table) (s : String) (hl : a.meeting_link = some s)
    (hs : s ≠ "") :
    a ∉ meetSelected env ∧
      ∀ tr, handleGoogleMeetLinkCreation env = Except.ok tr →
        MeetEffect.createCall a.appointment_id ∉ tr ∧
          ∀ link, MeetEffect.updateLink a.appointment_id link ∉ tr := by
  have hsel : a ∉ meetSelected env := by
    intro hmem
    have := (List.mem_filter.1 hmem).2
    rw [meetLinkWindowSelect_iff] at this
    have hle : linkEmpty a.meeting_link = true := this.2.2.2.1
    rw [hl] at hle
    exact hs (by simpa [linkEmpty] using hle)
  refine ⟨hsel, fun tr htr => ?_⟩
  have hno := meet_not_selected_no_effects env a hnd ha hsel tr htr
  exact ⟨fun hmem => hno _ hmem rfl, fun link hmem => hno _ hmem rfl⟩

/-- An in-window scheduled appointment that already carries a link. -/
def aptLinked : Appointment :=
  { appointment_id := 2, meeting_date := 600000, duration := 30,
    content := "visit", status := "scheduled", is_online := true,
    is_visible := true, meeting_link := some "https://meet.example/x",
    patient_id := 1, staff_id := 2 }

/-- A scheduled appointment far outside the 30-minute window. -/
def aptOld : Appointment :=
  { appointment_id := 3, meeting_date := 2000000, duration := 30,
    content := "visit", status := "scheduled", is_online := true,
    is_visible := true, meeting_link := none, patient_id := 1,
    staff_id := 2 }

/-- A tick environment holding the two appointments above. -/
def envMeet : TickEnv :=
  { hasConfig := true, nowMs := 0, execMs := 5,
    table := [aptLinked, aptOld],
    meetQueryFails := false, reminderQueryFails := false,
    tokenEnv := fun _ => tokenEnvRefreshOk,
    meetCreate := fun _ => some "https://meet.example/new",
    patientReminderOk := fun _ => true, staffReminderOk := fun _ => true }

/-- Witness for C7: the out-of-window appointment is neither selected
nor touched. -/
theorem meet_link_selection_exact_witness :
    aptOld ∉ meetSelected envMeet ∧
      ∀ tr, handleGoogleMeetLinkCreation envMeet = Except.ok tr →
        MeetEffect.createCall aptOld.appointment_id ∉ tr ∧
          ∀ link, MeetEffect.updateLink aptOld.appointment_id link ∉ tr :=
  (meet_link_selection_exact envMeet aptOld (by decide)).2 (by decide)
    (by decide)

/-- Witness for C8: the already-linked appointment is neither selected
nor touched. -/
theorem meet_link_idempotent_nonempty_link_witness :
    aptLinked ∉ meetSelected envMeet ∧
      ∀ tr, handleGoogleMeetLinkCreation envMeet = Except.ok tr →
        MeetEffect.createCall aptLinked.appointment_id ∉ tr ∧
          ∀ link, MeetEffect.updateLink aptLinked.appointment_id link ∉ tr :=
  meet_link_idempotent_nonempty_link envMeet aptLinked (by decide)
    (by decide) "https://meet.example/x" rfl (by decide)

/-! ## C1 — per-participant isolation in the reminder loop -/

/-- Token environment whose stored credential probes successfully. -/
def tokenEnvProbeOk : TokenEnv :=
  { cred := some credValid, probeOk := true, refreshOk := true,
    newAccessToken := "n", refreshPersistOk := true }

/-- Token environment of a user with no stored credential row. -/
def tokenEnvNoCred : TokenEnv :=
  { cred := none, probeOk := true, refreshOk := true,
    newAccessToken := "n", refreshPersistOk := true }

/-- A scheduled, visible appointment due exactly three days from
`now = 0`. -/
def aptDue : Appointment :=
  { appointment_id := 1, meeting_date := 259200000, duration := 30,
    content := "visit", status := "scheduled", is_online := true,
    is_visible := true, meeting_link := none, patient_id := 11,
    staff_id := 22 }

/-- Environment where both participants' tokens resolve but creating
the patient's reminder throws. -/
def envPatientThrows : TickEnv :=
  { hasConfig := true, nowMs := 0, execMs := 5, table := [aptDue],
    meetQueryFails := false, reminderQueryFails := false,
    tokenEnv := fun _ => tokenEnvProbeOk,
    meetCreate := fun _ => none,
    patientReminderOk := fun _ => false,
    staffReminderOk := fun _ => true }

/-- Environment where the patient (user 11) has no stored credential
and the staff token resolves. -/
def envNoPatientCred : TickEnv :=
  { hasConfig := true, nowMs := 0, execMs := 5, table := [aptDue],
    meetQueryFails := false, reminderQueryFails := false,
    tokenEnv := fun uid => if uid == 11 then tokenEnvNoCred
      else tokenEnvProbeOk,
    meetCreate := fun _ => none,
    patientReminderOk := fun _ => true,
    staffReminderOk := fun _ => true }

/-- Counterexample to C1 as stated: both participants have usable
tokens, the appointment is selected, but because the patient's reminder
creation throws inside the single per-appointment `try`, the staff
reminder for the same appointment is never attempted. -/
theorem reminder_patient_throw_skips_staff :
    (getGoogleTokensForUser
        (envPatientThrows.tokenEnv aptDue.patient_id)).result ≠ none ∧
      (getGoogleTokensForUser
        (envPatientThrows.tokenEnv aptDue.staff_id)).result ≠ none ∧
      envPatientThrows.patientReminderOk aptDue.appointment_id = false ∧
      aptDue ∈ reminderSelected envPatientThrows ∧
      ReminderEffect.attempt aptDue.appointment_id Role.patient ∈
        (handleThreeDayCalendarReminders envPatientThrows).toOption.getD [] ∧
      ReminderEffect.attempt aptDue.appointment_id Role.staff ∉
        (handleThreeDayCalendarReminders envPatientThrows).toOption.getD [] := by
  decide

/-- C1 (amended): in the reminder loop, absence of a usable credential
for one participant never prevents attempting the other, and no
staff-side outcome prevents the patient attempt (the patient is
attempted first); but because both creations share one per-appointment
`try`, a throw while creating the patient's reminder does skip the
staff attempt for that appointment. -/
theorem reminder_participant_isolation (env : TickEnv) (a : Appointment) :
    ((getGoogleTokensForUser (env.tokenEnv a.patient_id)).result = none →
      (getGoogleTokensForUser (env.tokenEnv a.staff_id)).result ≠ none →
      ReminderEffect.attempt a.appointment_id Role.staff ∈
        processReminderApp env a) ∧
    ((getGoogleTokensForUser (env.tokenEnv a.patient_id)).result ≠ none →
      ReminderEffect.attempt a.appointment_id Role.patient ∈
        processReminderApp env a) ∧
    ((getGoogleTokensForUser (env.tokenEnv a.patient_id)).result ≠ none →
      env.patientReminderOk a.appointment_id = false →
      ReminderEffect.attempt a.appointment_id Role.staff ∉
        processReminderApp env a) := by
  cases hp : (getGoogleTokensForUser (env.tokenEnv a.patient_id)).result <;>
    cases hs : (getGoogleTokensForUser (env.tokenEnv a.staff_id)).result <;>
      cases hpo : env.patientReminderOk a.appointment_id <;>
        simp [processReminderApp, hp, hs, hpo]

/-- Witness for C1 (amended): the three clauses at concrete
environments. -/
theorem reminder_participant_isolation_witness :
    ReminderEffect.attempt aptDue.appointment_id Role.staff ∈
        processReminderApp envNoPatientCred aptDue ∧
      ReminderEffect.attempt aptDue.appointment_id Role.patient ∈
        processReminderApp envPatientThrows aptDue ∧
      ReminderEffect.attempt aptDue.appointment_id Role.staff ∉
        processReminderApp envPatientThrows aptDue :=
  ⟨(reminder_participant_isolation envNoPatientCred aptDue).1
      (by decide) (by decide),
    (reminder_participant_isolation envPatientThrows aptDue).2.1 (by decide),
    (reminder_participant_isolation envPatientThrows aptDue).2.2
      (by decide) rfl⟩

/-! ## C3 — the shape of the tick summary -/

/-- An in-window online scheduled appointment without a link. -/
def aptSoon : Appointment :=
  { appointment_id := 4, meeting_date := 600000, duration := 30,
    content := "visit", status := "scheduled", is_online := true,
    is_visible := true, meeting_link := none, patient_id := 11,
    staff_id := 22 }

/-- Environment in which `aptSoon`'s conference creation succeeds. -/
def envOutcomeOk : TickEnv :=
  { hasConfig := true, nowMs := 0, execMs := 5, table := [aptSoon],
    meetQueryFails := false, reminderQueryFails := false,
    tokenEnv := fun _ => tokenEnvProbeOk,
    meetCreate := fun _ => some "https://meet.example/y",
    patientReminderOk := fun _ => true,
    staffReminderOk := fun _ => true }

/-- Same environment except `aptSoon`'s conference creation throws. -/
def envOutcomeFail : TickEnv :=
  { envOutcomeOk with meetCreate := fun _ => none }

/-- Counterexample to C3 as stated: a tick in which the only due
appointment succeeds and a tick in which it fails return the identical
summary (same response body, same per-task settled statuses) even
though the external effects differ — the returned/logged summary
carries no per-task counts of succeeded or failed appointments and no
per-failure reasons. -/
theorem tick_response_ignores_outcomes :
    (serveTick envOutcomeOk).response = (serveTick envOutcomeFail).response ∧
      (serveTick envOutcomeOk).meetTaskFulfilled =
        (serveTick envOutcomeFail).meetTaskFulfilled ∧
      (serveTick envOutcomeOk).reminderTaskFulfilled =
        (serveTick envOutcomeFail).reminderTaskFulfilled ∧
      (serveTick envOutcomeOk).meetEffects ≠
        (serveTick envOutcomeFail).meetEffects := by decide

/-- C3 (amended): a configured tick returns a fixed success body
(`success`, `message`, `timestamp`, `executionTime`) and records, per
task, only whether the task fulfilled or rejected; no counts of
found/succeeded/failed appointments and no per-failure reasons are
aggregated into the returned summary. -/
theorem tick_result_shape (env : TickEnv) (h : env.hasConfig = true) :
    (serveTick env).response =
        { success := true,
          message := some "Cron job executed successfully",
          errorMsg := none, timestamp := some env.nowMs,
          executionTime := some env.execMs } ∧
      (serveTick env).meetTaskFulfilled =
        exceptOk (handleGoogleMeetLinkCreation env) ∧
      (serveTick env).reminderTaskFulfilled =
        exceptOk (handleThreeDayCalendarReminders env) := by
  simp [serveTick, h]

/-- Witness for C3 (amended) at a concrete environment. -/
theorem tick_result_shape_witness :
    (serveTick envOutcomeOk).response =
        { success := true,
          message := some "Cron job executed successfully",
          errorMsg := none, timestamp := some envOutcomeOk.nowMs,
          executionTime := some envOutcomeOk.execMs } ∧
      (serveTick envOutcomeOk).meetTaskFulfilled =
        exceptOk (handleGoogleMeetLinkCreation envOutcomeOk) ∧
      (serveTick envOutcomeOk).reminderTaskFulfilled =
        exceptOk (handleThreeDayCalendarReminders envOutcomeOk) :=
  tick_result_shape envOutcomeOk rfl

/-! ## C9 — task-boundary isolation inside one tick -/

/-- C9: the two sub-tasks are isolated at the task boundary.  Changing
anything that can make the meet-link task throw (its window query, its
creation outcomes) leaves the reminder task's settled status and entire
effect trace unchanged, and symmetrically for the reminder side. -/
theorem tick_task_isolation (env : TickEnv) (b b2 : Bool)
    (f : Nat → Option String) (g1 g2 : Nat → Bool) :
    ((serveTick
          { env with
            meetQueryFails := b,
            meetCreate := f }).reminderEffects =
        (serveTick env).reminderEffects ∧
      (serveTick
          { env with
            meetQueryFails := b,
            meetCreate := f }).reminderTaskFulfilled =
        (serveTick env).reminderTaskFulfilled) ∧
    ((serveTick
          { env with
            reminderQueryFails := b2,
            patientReminderOk := g1,
            staffReminderOk := g2 }).meetEffects =
        (serveTick env).meetEffects ∧
      (serveTick
          { env with
            reminderQueryFails := b2,
            patientReminderOk := g1,
            staffReminderOk := g2 }).meetTaskFulfilled =
        (serveTick env).meetTaskFulfilled) := by
  cases h : env.hasConfig <;>
    simp [serveTick, h, handleGoogleMeetLinkCreation,
      handleThreeDayCalendarReminders, meetSelected, reminderSelected]
  exact ⟨⟨rfl, rfl⟩, rfl, rfl⟩
